import Mathlib

/-!
Verification of `tasks/pipeline.py` (datadog-agent CI helper tasks).

The two invoke task handlers `trigger` and `follow` are embedded as pure
functions over an `Env` record that supplies the behavior of the external
collaborators (`trigger_agent_pipeline`, `Gitlab().pipelines_for_ref`, and
the `git rev-parse` subprocess).  Each handler returns the ordered list of
observable events (external calls and printed lines) together with an
`Except` outcome: `Except.error` models a Python exception escaping the
handler (an external failure propagating, or the `IndexError` raised by
subscripting an empty list), `Except.ok ()` a normal return.
-/

/-- A pipeline record as returned by `pipelines_for_ref`; only its
dictionary entry under the key `id` is ever read by this code. -/
structure PipelineRecord where
  id : String
deriving Repr, DecidableEq

/-- Errors a handler run can surface: a failure raised by an external
call, or the IndexError from subscripting an empty pipeline list. -/
inductive PyError where
  | externalError (msg : String)
  | indexError
deriving Repr, DecidableEq

/-- Observable events of a handler run, in program order. -/
inductive Event where
  | startPipelineCall (ref release_version_6 release_version_7 repo_branch : String)
      (windows_update_latest : Bool)
  | waitForPipelineCall (id : String)
  | pipelinesForRefCall (project ref : String)
  | gitRevParseCall
  | printLine (s : String)
deriving Repr, DecidableEq

/-- Whether an event is a wait-for-pipeline call. -/
def Event.isWait : Event → Bool
  | .waitForPipelineCall _ => true
  | _ => false

/-- Whether an event is a pipelines-for-ref lookup call. -/
def Event.isLookup : Event → Bool
  | .pipelinesForRefCall _ _ => true
  | _ => false

/-- Whether an event is a version-control query (the git subprocess). -/
def Event.isVCS : Event → Bool
  | .gitRevParseCall => true
  | _ => false

/-- Whether an event is a printed line. -/
def Event.isPrint : Event → Bool
  | .printLine _ => true
  | _ => false

/-- Whether an event is a call into the CI provider client
(start-pipeline, wait-for-pipeline, or the pipeline lookup). -/
def Event.isCI : Event → Bool
  | .startPipelineCall _ _ _ _ _ => true
  | .waitForPipelineCall _ => true
  | .pipelinesForRefCall _ _ => true
  | _ => false

/-- The behavior of the external collaborators for one run:
`trigger_agent_pipeline` may fail or return a pipeline id;
`pipelines_for_ref` returns the ordered record list (most recent first);
`git_rev_parse_stdout` is the raw standard output of
`git rev-parse --abbrev-ref HEAD` (the handler strips it). -/
structure Env where
  trigger_agent_pipeline : String → String → String → String → Bool → Except PyError String
  pipelines_for_ref : String → String → List PipelineRecord
  git_rev_parse_stdout : String

/-- Python truthiness of an optional string argument: `None` and the
empty string are falsy, every other string is truthy. -/
def truthy : Option String → Bool
  | none => false
  | some s => s != ""

/-- The `trigger` task handler: call `trigger_agent_pipeline` with the
five arguments (defaults as in the Python signature), then call
`wait_for_pipeline` on the returned id.  A failure of the start call
propagates unchanged and skips the wait. -/
def trigger (env : Env) (ref : String := "master")
    (release_version_6 : String := "nightly")
    (release_version_7 : String := "nightly-a7")
    (repo_branch : String := "nightly")
    (windows_update_latest : Bool := true) :
    List Event × Except PyError Unit :=
  match env.trigger_agent_pipeline ref release_version_6 release_version_7
      repo_branch windows_update_latest with
  | .error e =>
      ([.startPipelineCall ref release_version_6 release_version_7
          repo_branch windows_update_latest], .error e)
  | .ok pipeline_id =>
      ([.startPipelineCall ref release_version_6 release_version_7
          repo_branch windows_update_latest,
        .waitForPipelineCall pipeline_id], .ok ())

/-- The `follow` task handler.  Branch selection mirrors the Python
`if id: / elif ref: / elif here:` chain under truthiness.  In the
explicit-ref branch the code subscripts `pipelines_for_ref(...)[0]`
unconditionally, so an empty lookup result raises IndexError; only the
`here` branch guards with `len(pipelines) > 0` and prints a message
when no pipeline exists. -/
def follow (env : Env) (id : Option String := none)
    (ref : Option String := none) (here : Bool := false) :
    List Event × Except PyError Unit :=
  if truthy id then
    ([.waitForPipelineCall (id.getD (""))], .ok ())
  else if truthy ref then
    let r := ref.getD ("")
    match env.pipelines_for_ref ("DataDog/datadog-agent") r with
    | [] => ([.pipelinesForRefCall ("DataDog/datadog-agent") r], .error .indexError)
    | p :: _ =>
        ([.pipelinesForRefCall ("DataDog/datadog-agent") r,
          .waitForPipelineCall p.id], .ok ())
  else if here then
    let r := env.git_rev_parse_stdout.trim
    match env.pipelines_for_ref ("DataDog/datadog-agent") r with
    | p :: _ =>
        ([.gitRevParseCall,
          .pipelinesForRefCall ("DataDog/datadog-agent") r,
          .waitForPipelineCall p.id], .ok ())
    | [] =>
        ([.gitRevParseCall,
          .pipelinesForRefCall ("DataDog/datadog-agent") r,
          .printLine ("No pipelines found for " ++ r)], .ok ())
  else
    ([], .ok ())

/-- A concrete environment for witnesses: the start call returns id 42,
the lookup finds one record (id 7) for ref foo and nothing otherwise. -/
def envW : Env where
  trigger_agent_pipeline := fun _ _ _ _ _ => .ok ("42")
  pipelines_for_ref := fun _ r => if r == "foo" then [⟨"7"⟩] else []
  git_rev_parse_stdout := " my-branch\n"

/-- A concrete environment whose pipeline lookup always comes back
empty, and whose git query reports branch main. -/
def envEmpty : Env where
  trigger_agent_pipeline := fun _ _ _ _ _ => .ok ("0")
  pipelines_for_ref := fun _ _ => []
  git_rev_parse_stdout := "main\n"

/-- A concrete environment whose start-pipeline call fails. -/
def envFail : Env where
  trigger_agent_pipeline := fun _ _ _ _ _ => .error (.externalError ("boom"))
  pipelines_for_ref := fun _ _ => []
  git_rev_parse_stdout := "main\n"

/-- C1 counterexample: with a lookup that returns no pipelines, `follow`
given an explicit ref does NOT print a message and DOES raise a failure
(the IndexError from subscripting the empty list), contradicting the
claim that both the explicit-ref and the here path handle the absence of
pipelines by printing. -/
theorem C1_ref_empty_counterexample :
    (follow envEmpty none (some ("foo")) false).2 = .error .indexError ∧
    ∀ e ∈ (follow envEmpty none (some ("foo")) false).1, e.isPrint = false := by
  refine ⟨rfl, ?_⟩
  decide

/-- C1 (amended): when the lookup returns no pipelines, only the
here path handles the absence by printing the plain message and returns
normally without any wait call; the explicit-ref path raises an
IndexError, prints nothing, and performs no wait call. -/
theorem C1_empty_lookup_behavior (env : Env) (r : String) (hr : r ≠ "")
    (h1 : env.pipelines_for_ref ("DataDog/datadog-agent") r = [])
    (h2 : env.pipelines_for_ref ("DataDog/datadog-agent")
        env.git_rev_parse_stdout.trim = []) :
    (follow env none none true).2 = .ok () ∧
    Event.printLine ("No pipelines found for " ++ env.git_rev_parse_stdout.trim)
      ∈ (follow env none none true).1 ∧
    (∀ e ∈ (follow env none none true).1, e.isWait = false) ∧
    (follow env none (some r) false).2 = .error .indexError ∧
    (∀ e ∈ (follow env none (some r) false).1, e.isWait = false) ∧
    (∀ e ∈ (follow env none (some r) false).1, e.isPrint = false) := by
  simp only [follow, truthy, hr, h2, bne_self_eq_false, Bool.false_eq_true,
    if_false, if_true, bne_iff_ne, ne_eq, not_false_eq_true, Option.getD_some]
  rw [h1]
  simp [Event.isWait, Event.isPrint]

/-- C1 witness. -/
theorem C1_empty_lookup_behavior_witness :
    (follow envEmpty none none true).2 = .ok () ∧
    Event.printLine ("No pipelines found for " ++ envEmpty.git_rev_parse_stdout.trim)
      ∈ (follow envEmpty none none true).1 ∧
    (∀ e ∈ (follow envEmpty none none true).1, e.isWait = false) ∧
    (follow envEmpty none (some ("foo")) false).2 = .error .indexError ∧
    (∀ e ∈ (follow envEmpty none (some ("foo")) false).1, e.isWait = false) ∧
    (∀ e ∈ (follow envEmpty none (some ("foo")) false).1, e.isPrint = false) :=
  C1_empty_lookup_behavior envEmpty ("foo") (by decide) rfl rfl

/-- C2: with every argument left at its default, `trigger` performs the
start-pipeline call with exactly the tuple master, nightly, nightly-a7,
nightly, true, and then the wait call on the id that call returned, and
nothing else. -/
theorem C2_trigger_defaults (env : Env) (pid : String)
    (h : env.trigger_agent_pipeline ("master") ("nightly") ("nightly-a7")
        ("nightly") true = .ok pid) :
    trigger env =
      ([.startPipelineCall ("master") ("nightly") ("nightly-a7") ("nightly") true,
        .waitForPipelineCall pid], .ok ()) := by
  simp [trigger, h]

/-- C2 witness. -/
theorem C2_trigger_defaults_witness :
    trigger envW =
      ([.startPipelineCall ("master") ("nightly") ("nightly-a7") ("nightly") true,
        .waitForPipelineCall ("42")], .ok ()) :=
  C2_trigger_defaults envW ("42") rfl

/-- C3: with id absent and a truthy ref, `follow` performs the lookup
with project DataDog/datadog-agent and that ref, and then the wait call
on the id field of the first record of the returned sequence. -/
theorem C3_follow_ref (env : Env) (r : String) (hr : r ≠ "")
    (p : PipelineRecord) (rest : List PipelineRecord)
    (h : env.pipelines_for_ref ("DataDog/datadog-agent") r = p :: rest) :
    follow env none (some r) false =
      ([.pipelinesForRefCall ("DataDog/datadog-agent") r,
        .waitForPipelineCall p.id], .ok ()) := by
  simp only [follow, truthy, bne_self_eq_false, Bool.false_eq_true, if_false,
    bne_iff_ne, ne_eq, hr, not_false_eq_true, if_true, Option.getD_some]
  rw [h]

/-- C3 witness. -/
theorem C3_follow_ref_witness :
    follow envW none (some ("foo")) false =
      ([.pipelinesForRefCall ("DataDog/datadog-agent") ("foo"),
        .waitForPipelineCall ("7")], .ok ()) :=
  C3_follow_ref envW ("foo") (by decide) ⟨"7"⟩ [] rfl

/-- C4: with a truthy id, `follow` performs exactly one wait call on
that id and nothing else: no lookup, no version-control query, no print,
whatever the other arguments are. -/
theorem C4_follow_id (env : Env) (i : String) (hi : i ≠ "")
    (ref : Option String) (here : Bool) :
    follow env (some i) ref here = ([.waitForPipelineCall i], .ok ()) := by
  simp [follow, truthy, hi]

/-- C4 witness. -/
theorem C4_follow_id_witness :
    follow envW (some ("123")) (some ("foo")) true =
      ([.waitForPipelineCall ("123")], .ok ()) :=
  C4_follow_id envW ("123") (by decide) (some ("foo")) true

/-- C5: with here true, id and ref absent, and the lookup returning zero
records for the inferred ref, `follow` prints exactly the line
No pipelines found for ref, and performs no wait call. -/
theorem C5_here_no_pipelines (env : Env)
    (h : env.pipelines_for_ref ("DataDog/datadog-agent")
        env.git_rev_parse_stdout.trim = []) :
    follow env none none true =
      ([.gitRevParseCall,
        .pipelinesForRefCall ("DataDog/datadog-agent") env.git_rev_parse_stdout.trim,
        .printLine ("No pipelines found for " ++ env.git_rev_parse_stdout.trim)],
       .ok ()) := by
  simp [follow, truthy, h]

/-- C5 witness. -/
theorem C5_here_no_pipelines_witness :
    follow envEmpty none none true =
      ([.gitRevParseCall,
        .pipelinesForRefCall ("DataDog/datadog-agent")
          envEmpty.git_rev_parse_stdout.trim,
        .printLine ("No pipelines found for " ++ envEmpty.git_rev_parse_stdout.trim)],
       .ok ()) :=
  C5_here_no_pipelines envEmpty rfl

/-- C6: with here true and id and ref absent, `follow` queries version
control, and every lookup it performs (there is one) uses project
DataDog/datadog-agent and the stripped standard output of the git
rev-parse query as the ref. -/
theorem C6_here_ref_from_git (env : Env) :
    Event.gitRevParseCall ∈ (follow env none none true).1 ∧
    Event.pipelinesForRefCall ("DataDog/datadog-agent")
      env.git_rev_parse_stdout.trim ∈ (follow env none none true).1 ∧
    ∀ e ∈ (follow env none none true).1, e.isLookup = true →
      e = Event.pipelinesForRefCall ("DataDog/datadog-agent")
            env.git_rev_parse_stdout.trim := by
  simp only [follow, truthy, bne_self_eq_false, Bool.false_eq_true, if_false,
    if_true]
  cases h : env.pipelines_for_ref ("DataDog/datadog-agent")
      env.git_rev_parse_stdout.trim <;>
    simp [Event.isLookup]

/-- C7: for any argument tuple, when the start call returns an id,
`trigger` performs exactly two CI calls, the start-pipeline call followed
by the wait call on the returned id, and no lookup and no
version-control query. -/
theorem C7_trigger_two_calls (env : Env)
    (ref release_version_6 release_version_7 repo_branch : String)
    (windows_update_latest : Bool) (pid : String)
    (h : env.trigger_agent_pipeline ref release_version_6 release_version_7
        repo_branch windows_update_latest = .ok pid) :
    trigger env ref release_version_6 release_version_7 repo_branch
        windows_update_latest =
      ([.startPipelineCall ref release_version_6 release_version_7 repo_branch
          windows_update_latest,
        .waitForPipelineCall pid], .ok ()) ∧
    ∀ e ∈ (trigger env ref release_version_6 release_version_7 repo_branch
        windows_update_latest).1, e.isLookup = false ∧ e.isVCS = false := by
  simp [trigger, h, Event.isLookup, Event.isVCS]

/-- C7 witness. -/
theorem C7_trigger_two_calls_witness :
    trigger envW ("v1") ("a") ("b") ("c") false =
      ([.startPipelineCall ("v1") ("a") ("b") ("c") false,
        .waitForPipelineCall ("42")], .ok ()) ∧
    ∀ e ∈ (trigger envW ("v1") ("a") ("b") ("c") false).1,
      e.isLookup = false ∧ e.isVCS = false :=
  C7_trigger_two_calls envW ("v1") ("a") ("b") ("c") false ("42") rfl

/-- C8: when the start-pipeline call fails, `trigger` propagates that
very failure unchanged and performs no wait call in that run. -/
theorem C8_trigger_failure (env : Env)
    (ref release_version_6 release_version_7 repo_branch : String)
    (windows_update_latest : Bool) (e : PyError)
    (h : env.trigger_agent_pipeline ref release_version_6 release_version_7
        repo_branch windows_update_latest = .error e) :
    trigger env ref release_version_6 release_version_7 repo_branch
        windows_update_latest =
      ([.startPipelineCall ref release_version_6 release_version_7 repo_branch
          windows_update_latest], .error e) := by
  simp [trigger, h]

/-- C8 witness. -/
theorem C8_trigger_failure_witness :
    trigger envFail =
      ([.startPipelineCall ("master") ("nightly") ("nightly-a7") ("nightly") true],
       .error (.externalError ("boom"))) :=
  C8_trigger_failure envFail ("master") ("nightly") ("nightly-a7") ("nightly")
    true (.externalError ("boom")) rfl

/-- C9: with id falsy, ref falsy, and here false, `follow` performs no
event at all (no CI call, no version-control query, no print) and
returns normally. -/
theorem C9_follow_noop (env : Env) (id ref : Option String)
    (hid : truthy id = false) (href : truthy ref = false) :
    follow env id ref false = ([], .ok ()) := by
  simp [follow, hid, href]

/-- C9 witness. -/
theorem C9_follow_noop_witness :
    follow envW (some ("")) none false = ([], .ok ()) :=
  C9_follow_noop envW (some ("")) none (by decide) (by decide)

/-- C10: branch precedence under Python truthiness: a truthy id wins
over a truthy ref, so only the wait on id happens; and an empty-string
id is falsy, so the run is the same as with id absent, letting the ref
or here branch run instead of waiting on the empty string. -/
theorem C10_branch_precedence (env : Env) (i r : String) (hi : i ≠ "")
    (ref : Option String) (here : Bool) :
    follow env (some i) (some r) here = ([.waitForPipelineCall i], .ok ()) ∧
    follow env (some ("")) ref here = follow env none ref here := by
  constructor
  · simp [follow, truthy, hi]
  · simp [follow, truthy]

/-- C10 witness. -/
theorem C10_branch_precedence_witness :
    follow envW (some ("123")) (some ("foo")) true =
      ([.waitForPipelineCall ("123")], .ok ()) ∧
    follow envW (some ("")) (some ("foo")) true =
      follow envW none (some ("foo")) true :=
  C10_branch_precedence envW ("123") ("foo") (by decide) (some ("foo")) true
